import Mathlib

/-!
Shallow embedding of the TTRPG-ledger reputation subsystem
(`src/backend/app/routers/reputation.py`) and of the gear/reputation
pydantic schemas (`src/backend/app/models/gear.py`,
`src/backend/app/models/reputation.py`).

UUIDs and timestamps are modelled as `String` and `Nat`; the Supabase
backing store is modelled as an explicit record of tables, and each
database round trip the code issues is recorded in an ordered trace of
`StoreQuery` events so that sequencing and frame properties are statable.
-/

namespace TTRPG

/-- Authenticated user record (`app.models.user.User`), reduced to the id
field, which is the only field this subsystem reads. -/
structure User where
  id : String
deriving Repr, DecidableEq

/-- One row of the `pilots` table: id plus owner reference, the two columns
the ownership guard filters on. -/
structure PilotRow where
  id : String
  user_id : String
deriving Repr, DecidableEq

/-- One row of the `reputation_changes` append-only ledger table, as in
`ReputationChange` of `app/models/reputation.py`. -/
structure ReputationChangeRow where
  id : String
  log_entry_id : String
  pilot_id : String
  corporation_id : String
  change_value : Int
  notes : Option String
  created_at : Nat
deriving Repr, DecidableEq

/-- One row of the `corporations` table (id and name, the columns this
subsystem touches). -/
structure CorporationRow where
  id : String
  name : String
deriving Repr, DecidableEq

/-- The backing relational store: the three base tables this subsystem
reads. The `pilot_reputation` view is derived, not stored. -/
structure DB where
  pilots : List PilotRow
  reputation_changes : List ReputationChangeRow
  corporations : List CorporationRow
deriving Repr, DecidableEq

/-- The embedded `corporations(name)` sub-record that the history query's
join attaches to each ledger row: an object holding an optional name. -/
structure CorpEmbed where
  name : Option String
deriving Repr, DecidableEq

/-- A row as returned by the history query
`select("*, corporations(name)")`: the ledger columns plus the embedded
corporation sub-record (`none` models an absent embedded record). -/
structure HistoryRow where
  id : String
  log_entry_id : String
  pilot_id : String
  corporation_id : String
  change_value : Int
  notes : Option String
  created_at : Nat
  corporations : Option CorpEmbed
deriving Repr, DecidableEq

/-- Pydantic `ReputationChangeWithCorp`: a full reputation change with the
corporation name flattened in. -/
structure ReputationChangeWithCorp where
  id : String
  log_entry_id : String
  pilot_id : String
  corporation_id : String
  change_value : Int
  notes : Option String
  created_at : Nat
  corporation_name : String
deriving Repr, DecidableEq

/-- Pydantic `PilotReputation`: aggregated reputation for a
pilot-corporation pair, one row of the `pilot_reputation` view. -/
structure PilotReputation where
  pilot_id : String
  corporation_id : String
  corporation_name : String
  reputation_value : Int
deriving Repr, DecidableEq

/-- An HTTP endpoint outcome: a successful payload or an
`HTTPException(status_code, detail)`. -/
inductive HttpResult (α : Type) where
  | ok (value : α)
  | error (status : Nat) (detail : String)
deriving Repr, DecidableEq

/-- The status/detail pair of a response, `none` on success: lets responses
of endpoints with different payload types be compared. -/
def HttpResult.errorOf : HttpResult α → Option (Nat × String)
  | .ok _ => none
  | .error s d => some (s, d)

/-- One round trip issued against the backing store. Select queries are the
ones this subsystem issues; the write queries are part of the store client
interface and are included so that the frame property (no call writes) is
statable. -/
inductive StoreQuery where
  | selectPilotSingle (pilot_id user_id : String)
  | selectPilotReputation (pilot_id : String)
  | selectReputationHistory (pilot_id : String)
  | insertReputationChange (row : ReputationChangeRow)
  | deleteReputationChange (id : String)
  | updateReputationChangeValue (id : String) (v : Int)
deriving Repr, DecidableEq

/-- Effect of a store query on the store state: selects leave the store
unchanged, writes modify the ledger table. -/
def StoreQuery.apply : StoreQuery → DB → DB
  | .selectPilotSingle _ _, db => db
  | .selectPilotReputation _, db => db
  | .selectReputationHistory _, db => db
  | .insertReputationChange r, db =>
      { db with reputation_changes := r :: db.reputation_changes }
  | .deleteReputationChange i, db =>
      { db with reputation_changes :=
          db.reputation_changes.filter (fun r => !(r.id == i)) }
  | .updateReputationChangeValue i v, db =>
      { db with reputation_changes :=
          (db.reputation_changes.map (fun r =>
            if r.id == i then { r with change_value := v } else r)) }

/-- Replay a trace of store queries against a store state. -/
def replay (db : DB) (qs : List StoreQuery) : DB :=
  qs.foldl (fun d q => q.apply d) db

/-- Supabase `.single().execute()` data: `some` the row when the filtered
result set has exactly one row, `none` otherwise (`result.data is None`). -/
def single : List α → Option α
  | [a] => some a
  | _ => none

/-- `verify_pilot_ownership` of `reputation.py`: one lookup on `pilots`
filtered by `id == pilot_id` and `user_id == current_user.id`, taken
`.single()`; returns whether `result.data is not None`. The second
component is the trace of store queries the call issues. -/
def verify_pilot_ownership (pilot_id : String) (current_user : User)
    (db : DB) : Bool × List StoreQuery :=
  let result := single (db.pilots.filter
    (fun p => p.id == pilot_id && p.user_id == current_user.id))
  (result.isSome, [.selectPilotSingle pilot_id current_user.id])

/-- Modelled from the spec: the `pilot_reputation` database view, whose SQL
definition is not under src/. Per the spec it is a derived aggregate: one
row per (pilot, corporation) pair occurring in the ledger, whose
`reputation_value` is the sum of `change_value` over all ledger rows for
that pair, with the corporation name joined in. -/
def pilot_reputation_view (db : DB) : List PilotReputation :=
  ((db.reputation_changes.map
      (fun r => (r.pilot_id, r.corporation_id))).dedup).map
    (fun pc =>
      { pilot_id := pc.1
        corporation_id := pc.2
        corporation_name :=
          (((db.corporations.find? (fun c => c.id == pc.2)).map
            (fun c => c.name)).getD "Unknown")
        reputation_value :=
          ((db.reputation_changes.filter
            (fun r => r.pilot_id == pc.1 && r.corporation_id == pc.2)).map
            (fun r => r.change_value)).sum })

/-- `list_pilot_reputation` of `reputation.py`: ownership guard, then a
read of the `pilot_reputation` view filtered by pilot id, each row mapped
directly into `PilotReputation`. On guard failure it raises
`HTTPException(404, "Pilot not found")` without issuing the read. -/
def list_pilot_reputation (pilot_id : String) (current_user : User)
    (db : DB) : HttpResult (List PilotReputation) × List StoreQuery :=
  let own := verify_pilot_ownership pilot_id current_user db
  if !own.1 then
    (.error 404 "Pilot not found", own.2)
  else
    (.ok ((pilot_reputation_view db).filter
        (fun r => r.pilot_id == pilot_id)),
      own.2 ++ [.selectPilotReputation pilot_id])

/-- The comparison the store applies for `.order("created_at", desc=True)`:
descending creation time. -/
def histGE (a b : HistoryRow) : Prop :=
  b.created_at ≤ a.created_at

instance : DecidableRel histGE :=
  fun a b => Nat.decLe b.created_at a.created_at

instance : IsTotal HistoryRow histGE :=
  ⟨fun a b => Nat.le_total b.created_at a.created_at⟩

instance : IsTrans HistoryRow histGE :=
  ⟨fun _ _ _ hab hbc => Nat.le_trans hbc hab⟩

/-- The row set returned by the history query before ordering: ledger rows
filtered by pilot id, with the `corporations(name)` sub-record embedded by
the store's join. -/
def historyRows (pilot_id : String) (db : DB) : List HistoryRow :=
  (db.reputation_changes.filter (fun r => r.pilot_id == pilot_id)).map
    (fun r =>
      { id := r.id
        log_entry_id := r.log_entry_id
        pilot_id := r.pilot_id
        corporation_id := r.corporation_id
        change_value := r.change_value
        notes := r.notes
        created_at := r.created_at
        corporations :=
          (db.corporations.find? (fun c => c.id == r.corporation_id)).map
            (fun c => { name := some c.name }) })

/-- The flattening loop body of `list_pilot_reputation_history`:
`corp_name = r.pop("corporations", \x7b\x7d).get("name", "Unknown")`, then
`ReputationChangeWithCorp(**r, corporation_name=corp_name)`. -/
def flattenHistoryRow (r : HistoryRow) : ReputationChangeWithCorp :=
  { id := r.id
    log_entry_id := r.log_entry_id
    pilot_id := r.pilot_id
    corporation_id := r.corporation_id
    change_value := r.change_value
    notes := r.notes
    created_at := r.created_at
    corporation_name :=
      match r.corporations with
      | some e => e.name.getD "Unknown"
      | none => "Unknown" }

/-- `list_pilot_reputation_history` of `reputation.py`: ownership guard,
then a read of `reputation_changes` joined with `corporations(name)`,
filtered by pilot id and ordered by `created_at` descending by the store,
each row flattened into `ReputationChangeWithCorp`. On guard failure it
raises `HTTPException(404, "Pilot not found")` without issuing the read. -/
def list_pilot_reputation_history (pilot_id : String) (current_user : User)
    (db : DB) : HttpResult (List ReputationChangeWithCorp) × List StoreQuery :=
  let own := verify_pilot_ownership pilot_id current_user db
  if !own.1 then
    (.error 404 "Pilot not found", own.2)
  else
    (.ok (((historyRows pilot_id db).insertionSort histGE).map
        flattenHistoryRow),
      own.2 ++ [.selectReputationHistory pilot_id])

/-- One call into this subsystem, for stating properties of sequences of
calls. -/
inductive ApiCall where
  | verifyCall (pilot_id : String) (u : User)
  | reputationCall (pilot_id : String) (u : User)
  | historyCall (pilot_id : String) (u : User)
deriving Repr, DecidableEq

/-- The store-query trace a call issues against a given store state. -/
def ApiCall.trace : ApiCall → DB → List StoreQuery
  | .verifyCall p u, db => (verify_pilot_ownership p u db).2
  | .reputationCall p u, db => (list_pilot_reputation p u db).2
  | .historyCall p u, db => (list_pilot_reputation_history p u db).2

/-- Run a sequence of calls, threading the store state through the replay
of each call's trace. -/
def runCalls (calls : List ApiCall) (db : DB) : DB :=
  calls.foldl (fun d c => replay d (c.trace d)) db

/-- Pydantic `GearBase` of `app/models/gear.py`: required name, optional
description and notes defaulting to null. -/
structure GearBase where
  name : String
  description : Option String := none
  notes : Option String := none
deriving Repr, DecidableEq

/-- Pydantic `ExoticGear`: gear base fields plus identifiers, timestamps
and the optional acquisition/loss log references. -/
structure ExoticGear extends GearBase where
  id : String
  pilot_id : String
  acquired_date : Nat
  acquired_log_id : Option String := none
  lost_log_id : Option String := none
  created_at : Nat
  updated_at : Nat
deriving Repr, DecidableEq

/-- Pydantic `ExoticGearWithLogInfo`: gear plus the convenience flag
`is_lost`, declared with default `False` and not derived from
`lost_log_id`. -/
structure ExoticGearWithLogInfo extends ExoticGear where
  is_lost : Bool := false
deriving Repr, DecidableEq

/-- Construction of an `ExoticGearWithLogInfo` from gear fields alone,
without passing an explicit `is_lost` value: the pydantic default applies. -/
def ExoticGearWithLogInfo.ofGear (g : ExoticGear) : ExoticGearWithLogInfo :=
  { toExoticGear := g }

/-- Pydantic `GearUpdate`: partial update where every field is optional and
defaults to null. -/
structure GearUpdate where
  name : Option String := none
  description : Option String := none
  notes : Option String := none
deriving Repr, DecidableEq

/-- A request body at the schema boundary: an association list of provided
field names to values, where a value is a string or null. -/
def RequestBody := List (String × Option String)

/-- Look up a provided field in a request body: `none` when the key was
omitted, `some v` when the key was provided with value `v`. -/
def lookupField (body : List (String × Option String)) (key : String) :
    Option (Option String) :=
  (body.find? (fun kv => kv.1 == key)).map (fun kv => kv.2)

/-- Pydantic resolution of a required `str` field: the key must be present
and non-null, otherwise validation fails. -/
def requiredField (body : List (String × Option String)) (key : String) :
    Except String String :=
  match lookupField body key with
  | some (some v) => .ok v
  | some none => .error (key ++ " must not be null")
  | none => .error (key ++ " is required")

/-- Pydantic resolution of an optional `str | None = None` field: an
omitted key falls back to the default null. -/
def optionalField (body : List (String × Option String)) (key : String) :
    Option String :=
  (lookupField body key).getD none

/-- Validation of a `GearUpdate` request body: every field is optional, so
any subset of the three keys is accepted. -/
def GearUpdate.validate (body : List (String × Option String)) :
    Except String GearUpdate :=
  .ok { name := optionalField body "name"
        description := optionalField body "description"
        notes := optionalField body "notes" }

/-- Validation of a `GearCreate` request body (same fields as `GearBase`):
name is required, the rest optional. -/
def GearCreate.validate (body : List (String × Option String)) :
    Except String GearBase :=
  match requiredField body "name" with
  | .error e => .error e
  | .ok n =>
      .ok { name := n
            description := optionalField body "description"
            notes := optionalField body "notes" }

/-! Concrete store fixtures used to instantiate the theorems, following the
scenarios of the spec's testable-properties section. -/

/-- An empty store: no pilots, no ledger rows, no corporations. -/
def dbEmpty : DB :=
  { pilots := [], reputation_changes := [], corporations := [] }

/-- A store where pilot "P" exists but is owned by user "V". -/
def dbOther : DB :=
  { pilots := [{ id := "P", user_id := "V" }]
    reputation_changes := []
    corporations := [] }

/-- A store where pilot "P" is owned by user "U" and has no reputation
changes. -/
def dbNoChanges : DB :=
  { pilots := [{ id := "P", user_id := "U" }]
    reputation_changes := []
    corporations := [] }

/-- The spec's scenario store: pilot "P" owned by user "U" with three
ledger rows against corporation "C" of values +5, -2, +10 created at times
1 < 2 < 3. -/
def dbScenario : DB :=
  { pilots := [{ id := "P", user_id := "U" }]
    reputation_changes :=
      [ { id := "c1", log_entry_id := "l1", pilot_id := "P"
          corporation_id := "C", change_value := 5, notes := none
          created_at := 1 }
      , { id := "c2", log_entry_id := "l2", pilot_id := "P"
          corporation_id := "C", change_value := -2, notes := none
          created_at := 2 }
      , { id := "c3", log_entry_id := "l3", pilot_id := "P"
          corporation_id := "C", change_value := 10, notes := none
          created_at := 3 } ]
    corporations := [{ id := "C", name := "C-Name" }] }

/-- The history payload the scenario store produces: the three changes
newest-first with the corporation name flattened in. -/
def histScenario : List ReputationChangeWithCorp :=
  [ { id := "c3", log_entry_id := "l3", pilot_id := "P"
      corporation_id := "C", change_value := 10, notes := none
      created_at := 3, corporation_name := "C-Name" }
  , { id := "c2", log_entry_id := "l2", pilot_id := "P"
      corporation_id := "C", change_value := -2, notes := none
      created_at := 2, corporation_name := "C-Name" }
  , { id := "c1", log_entry_id := "l1", pilot_id := "P"
      corporation_id := "C", change_value := 5, notes := none
      created_at := 1, corporation_name := "C-Name" } ]

/-- A store where pilot "P" owned by "U" has one ledger row whose
corporation id matches no corporations row, so the join yields no name. -/
def dbNoCorp : DB :=
  { pilots := [{ id := "P", user_id := "U" }]
    reputation_changes :=
      [ { id := "c1", log_entry_id := "l1", pilot_id := "P"
          corporation_id := "X", change_value := 4, notes := none
          created_at := 7 } ]
    corporations := [] }

/-! Helper lemmas shared by the claim theorems. -/

/-- Supabase `.single()` yields a row exactly when the filtered result set
has exactly one row. -/
theorem single_isSome_iff (xs : List α) :
    (single xs).isSome = true ↔ xs.length = 1 := by
  cases xs with
  | nil => simp [single]
  | cons a t =>
      cases t with
      | nil => simp [single]
      | cons b t2 => simp [single]

/-- The ownership guard issues exactly its one pilots lookup. -/
theorem verify_trace_eq (pilot_id : String) (u : User) (db : DB) :
    (verify_pilot_ownership pilot_id u db).2 =
      [.selectPilotSingle pilot_id u.id] := rfl

/-- The ownership guard's boolean is the presence of a single matching
pilots row. -/
theorem verify_fst_eq (pilot_id : String) (u : User) (db : DB) :
    (verify_pilot_ownership pilot_id u db).1 =
      (single (db.pilots.filter
        (fun p => p.id == pilot_id && p.user_id == u.id))).isSome := rfl

/-! Claim theorems. -/

/-- C2: `verify_pilot_ownership` performs one lookup for a pilots row
matching both the pilot id and the current user's id as owner, returns
`true` iff exactly one such row exists, and returns `false` (it is total,
it cannot raise) when no row matches. -/
theorem verify_pilot_ownership_correct (pilot_id : String) (u : User) (db : DB) :
    (verify_pilot_ownership pilot_id u db).2 =
      [.selectPilotSingle pilot_id u.id] ∧
    ((verify_pilot_ownership pilot_id u db).1 = true ↔
      db.pilots.countP (fun p => p.id == pilot_id && p.user_id == u.id) = 1) ∧
    (db.pilots.countP (fun p => p.id == pilot_id && p.user_id == u.id) = 0 →
      (verify_pilot_ownership pilot_id u db).1 = false) := by
  have hiff : (verify_pilot_ownership pilot_id u db).1 = true ↔
      db.pilots.countP (fun p => p.id == pilot_id && p.user_id == u.id) = 1 := by
    rw [verify_fst_eq, single_isSome_iff, List.countP_eq_length_filter]
  refine ⟨rfl, hiff, ?_⟩
  intro h0
  cases hb : (verify_pilot_ownership pilot_id u db).1 with
  | false => rfl
  | true => rw [hiff.mp hb] at h0; exact absurd h0 one_ne_zero

/-- Witness for C2 at a concrete store: the empty store has no matching
row and the guard returns false. -/
theorem verify_pilot_ownership_correct_witness :
    dbEmpty.pilots.countP (fun p => p.id == "P" && p.user_id == "U") = 0 ∧
    (verify_pilot_ownership "P" ⟨"U"⟩ dbEmpty).1 = false :=
  ⟨by decide,
    (verify_pilot_ownership_correct "P" ⟨"U"⟩ dbEmpty).2.2 (by decide)⟩

/-- When no pilots row matches both ids, the ownership guard is false. -/
theorem verify_false_of_not_owned (pilot_id : String) (u : User) (db : DB)
    (h : ∀ p ∈ db.pilots, ¬(p.id = pilot_id ∧ p.user_id = u.id)) :
    (verify_pilot_ownership pilot_id u db).1 = false := by
  have hfil : db.pilots.filter
      (fun p => p.id == pilot_id && p.user_id == u.id) = [] := by
    rw [List.filter_eq_nil_iff]
    intro p hp
    simpa [-not_and, not_and_or, Bool.and_eq_true, beq_iff_eq] using h p hp
  rw [verify_fst_eq, hfil]
  rfl

/-- C1: for every pilot id not owned by the requesting user (no pilots row
matches both the pilot id and the user id, whether the pilot is absent or
owned by another user), both endpoints produce the identical 404 "Pilot
not found" response, so the caller cannot tell the two reasons apart. -/
theorem not_owned_both_404 (pilot_id : String) (u : User) (db : DB)
    (h : ∀ p ∈ db.pilots, ¬(p.id = pilot_id ∧ p.user_id = u.id)) :
    (list_pilot_reputation pilot_id u db).1.errorOf =
      some (404, "Pilot not found") ∧
    (list_pilot_reputation_history pilot_id u db).1.errorOf =
      some (404, "Pilot not found") ∧
    (list_pilot_reputation pilot_id u db).1.errorOf =
      (list_pilot_reputation_history pilot_id u db).1.errorOf := by
  have hv := verify_false_of_not_owned pilot_id u db h
  refine ⟨?_, ?_, ?_⟩ <;>
    simp [list_pilot_reputation, list_pilot_reputation_history, hv,
      HttpResult.errorOf]

/-- Witness for C1 at a concrete store: pilot "P" exists but is owned by
user "V", and user "U" receives the 404 response from both endpoints. -/
theorem not_owned_both_404_witness :
    (∀ p ∈ dbOther.pilots, ¬(p.id = "P" ∧ p.user_id = "U")) ∧
    ((list_pilot_reputation "P" ⟨"U"⟩ dbOther).1.errorOf =
        some (404, "Pilot not found") ∧
      (list_pilot_reputation_history "P" ⟨"U"⟩ dbOther).1.errorOf =
        some (404, "Pilot not found") ∧
      (list_pilot_reputation "P" ⟨"U"⟩ dbOther).1.errorOf =
        (list_pilot_reputation_history "P" ⟨"U"⟩ dbOther).1.errorOf) :=
  ⟨by decide, not_owned_both_404 "P" ⟨"U"⟩ dbOther (by decide)⟩

/-- C3: the ownership lookup is always the first store query either
endpoint issues, and on guard failure both endpoints return the 404
response with a trace of exactly the one ownership lookup: neither the
reputation-view read nor the history read is ever issued. -/
theorem guard_false_blocks_reads (pilot_id : String) (u : User) (db : DB)
    (h : (verify_pilot_ownership pilot_id u db).1 = false) :
    (∀ db2 : DB, (list_pilot_reputation pilot_id u db2).2.head? =
        some (.selectPilotSingle pilot_id u.id) ∧
      (list_pilot_reputation_history pilot_id u db2).2.head? =
        some (.selectPilotSingle pilot_id u.id)) ∧
    (list_pilot_reputation pilot_id u db).1.errorOf =
      some (404, "Pilot not found") ∧
    (list_pilot_reputation pilot_id u db).2 =
      [.selectPilotSingle pilot_id u.id] ∧
    (list_pilot_reputation_history pilot_id u db).1.errorOf =
      some (404, "Pilot not found") ∧
    (list_pilot_reputation_history pilot_id u db).2 =
      [.selectPilotSingle pilot_id u.id] := by
  refine ⟨?_, ?_, ?_, ?_, ?_⟩
  · intro db2
    constructor <;>
      · simp only [list_pilot_reputation, list_pilot_reputation_history]
        split <;> simp [verify_trace_eq]
  all_goals simp [list_pilot_reputation, list_pilot_reputation_history, h,
    HttpResult.errorOf, verify_trace_eq]

/-- Witness for C3 at a concrete store: on the empty store the guard fails
and both endpoints issue only the ownership lookup. -/
theorem guard_false_blocks_reads_witness :
    (verify_pilot_ownership "P" ⟨"U"⟩ dbEmpty).1 = false ∧
    ((list_pilot_reputation "P" ⟨"U"⟩ dbEmpty).1.errorOf =
        some (404, "Pilot not found") ∧
      (list_pilot_reputation "P" ⟨"U"⟩ dbEmpty).2 =
        [.selectPilotSingle "P" "U"] ∧
      (list_pilot_reputation_history "P" ⟨"U"⟩ dbEmpty).1.errorOf =
        some (404, "Pilot not found") ∧
      (list_pilot_reputation_history "P" ⟨"U"⟩ dbEmpty).2 =
        [.selectPilotSingle "P" "U"]) :=
  ⟨by decide,
    (guard_false_blocks_reads "P" ⟨"U"⟩ dbEmpty (by decide)).2⟩

/-- The payload of a successful history call is the per-pilot joined rows
sorted newest-first and flattened. -/
theorem history_ok_eq (pilot_id : String) (u : User) (db : DB)
    (l : List ReputationChangeWithCorp)
    (h : (list_pilot_reputation_history pilot_id u db).1 = .ok l) :
    l = ((historyRows pilot_id db).insertionSort histGE).map
      flattenHistoryRow := by
  by_cases hb : (verify_pilot_ownership pilot_id u db).1 <;>
    simp [list_pilot_reputation_history, hb] at h
  exact h.symm

/-- C4: every successful history response is ordered by creation time
descending — each adjacent pair (a, b) satisfies a.created_at ≥
b.created_at — and contains one entry per ledger row of the pilot: it is a
permutation of the flattened joined rows, in particular of the same length
as the pilot's ledger. -/
theorem history_sorted_desc (pilot_id : String) (u : User) (db : DB)
    (l : List ReputationChangeWithCorp)
    (h : (list_pilot_reputation_history pilot_id u db).1 = .ok l) :
    l.Chain' (fun a b => b.created_at ≤ a.created_at) ∧
    l.Perm ((historyRows pilot_id db).map flattenHistoryRow) ∧
    l.length = (db.reputation_changes.filter
      (fun r => r.pilot_id == pilot_id)).length := by
  have hl := history_ok_eq pilot_id u db l h
  subst hl
  have hsorted := List.sorted_insertionSort histGE (historyRows pilot_id db)
  have hperm :
      (((historyRows pilot_id db).insertionSort histGE).map
        flattenHistoryRow).Perm
        ((historyRows pilot_id db).map flattenHistoryRow) :=
    (List.perm_insertionSort histGE (historyRows pilot_id db)).map
      flattenHistoryRow
  refine ⟨?_, hperm, ?_⟩
  · have hpair : List.Pairwise
        (fun (a b : ReputationChangeWithCorp) => b.created_at ≤ a.created_at)
        (((historyRows pilot_id db).insertionSort histGE).map
          flattenHistoryRow) :=
      List.Pairwise.map flattenHistoryRow (fun a b hab => hab) hsorted
    exact hpair.chain'
  · rw [hperm.length_eq]
    simp [historyRows]

/-- Witness for C4 at the spec's scenario store: the response lists the
changes created at times 3, 2, 1 in that order. -/
theorem history_sorted_desc_witness :
    (list_pilot_reputation_history "P" ⟨"U"⟩ dbScenario).1 =
      .ok histScenario ∧
    (histScenario.Chain' (fun a b => b.created_at ≤ a.created_at) ∧
      histScenario.Perm ((historyRows "P" dbScenario).map
        flattenHistoryRow) ∧
      histScenario.length = (dbScenario.reputation_changes.filter
        (fun r => r.pilot_id == "P")).length) :=
  ⟨by decide,
    history_sorted_desc "P" ⟨"U"⟩ dbScenario histScenario (by decide)⟩

/-- C5: every entry of a successful history response is the flattening of
some joined store row for the pilot; an entry whose embedded join carries
no corporation name presents the placeholder "Unknown" (never a missing
field or a failure), and an entry whose join carries a name presents that
name as corporation_name. -/
theorem history_corp_name (pilot_id : String) (u : User) (db : DB)
    (l : List ReputationChangeWithCorp)
    (h : (list_pilot_reputation_history pilot_id u db).1 = .ok l) :
    ∀ e ∈ l, ∃ r ∈ historyRows pilot_id db, e = flattenHistoryRow r ∧
      (r.corporations.bind CorpEmbed.name = none →
        e.corporation_name = "Unknown") ∧
      (∀ n, r.corporations.bind CorpEmbed.name = some n →
        e.corporation_name = n) := by
  have hl := history_ok_eq pilot_id u db l h
  subst hl
  intro e he
  rw [List.mem_map] at he
  obtain ⟨r, hr, hre⟩ := he
  rw [(List.perm_insertionSort histGE (historyRows pilot_id db)).mem_iff]
    at hr
  refine ⟨r, hr, hre.symm, ?_, ?_⟩
  · intro hnone
    subst hre
    cases hc : r.corporations with
    | none => simp [flattenHistoryRow, hc]
    | some c =>
        cases hn : c.name with
        | none => simp [flattenHistoryRow, hc, hn]
        | some n => rw [hc] at hnone; simp [hn] at hnone
  · intro n hn
    subst hre
    cases hc : r.corporations with
    | none => rw [hc] at hn; simp at hn
    | some c =>
        rw [hc] at hn
        have hcn : c.name = some n := hn
        simp [flattenHistoryRow, hc, hcn]

/-- Witness for C5 at a concrete store: the single ledger row of dbNoCorp
joins to no corporation, and the response presents "Unknown". -/
theorem history_corp_name_witness :
    (list_pilot_reputation_history "P" ⟨"U"⟩ dbNoCorp).1 = .ok
      [ { id := "c1", log_entry_id := "l1", pilot_id := "P"
          corporation_id := "X", change_value := 4, notes := none
          created_at := 7, corporation_name := "Unknown" } ] ∧
    (∀ e ∈ [ ({ id := "c1", log_entry_id := "l1", pilot_id := "P"
                corporation_id := "X", change_value := 4, notes := none
                created_at := 7, corporation_name := "Unknown" } :
                ReputationChangeWithCorp) ],
      ∃ r ∈ historyRows "P" dbNoCorp, e = flattenHistoryRow r ∧
        (r.corporations.bind CorpEmbed.name = none →
          e.corporation_name = "Unknown") ∧
        (∀ n, r.corporations.bind CorpEmbed.name = some n →
          e.corporation_name = n)) :=
  ⟨by decide,
    history_corp_name "P" ⟨"U"⟩ dbNoCorp
      [ { id := "c1", log_entry_id := "l1", pilot_id := "P"
          corporation_id := "X", change_value := 4, notes := none
          created_at := 7, corporation_name := "Unknown" } ] (by decide)⟩

/-- C6: on a successful call `list_pilot_reputation` returns exactly the
rows of the pilot_reputation view filtered by the pilot id, each mapped
into a PilotReputation record; a pilot with no recorded reputation changes
yields the empty list rather than an error. -/
theorem list_pilot_reputation_rows (pilot_id : String) (u : User) (db : DB)
    (h : (verify_pilot_ownership pilot_id u db).1 = true) :
    (list_pilot_reputation pilot_id u db).1 =
      .ok ((pilot_reputation_view db).filter
        (fun r => r.pilot_id == pilot_id)) ∧
    (db.reputation_changes.filter (fun r => r.pilot_id == pilot_id) = [] →
      (list_pilot_reputation pilot_id u db).1 = .ok []) := by
  have hok : (list_pilot_reputation pilot_id u db).1 =
      .ok ((pilot_reputation_view db).filter
        (fun r => r.pilot_id == pilot_id)) := by
    simp [list_pilot_reputation, h]
  refine ⟨hok, ?_⟩
  intro hempty
  rw [hok]
  have hfil : (pilot_reputation_view db).filter
      (fun r => r.pilot_id == pilot_id) = [] := by
    rw [List.filter_eq_nil_iff]
    intro a ha
    rw [pilot_reputation_view, List.mem_map] at ha
    obtain ⟨pc, hpc, hfa⟩ := ha
    rw [List.mem_dedup, List.mem_map] at hpc
    obtain ⟨c, hc, hpairc⟩ := hpc
    have hcnot := (List.filter_eq_nil_iff.mp hempty) c hc
    subst hfa
    subst hpairc
    simpa using hcnot
  rw [hfil]

/-- Witness for C6 at a concrete store: pilot "P" owned by "U" with an
empty ledger receives the empty list. -/
theorem list_pilot_reputation_rows_witness :
    (verify_pilot_ownership "P" ⟨"U"⟩ dbNoChanges).1 = true ∧
    dbNoChanges.reputation_changes.filter (fun r => r.pilot_id == "P") = [] ∧
    (list_pilot_reputation "P" ⟨"U"⟩ dbNoChanges).1 = .ok [] :=
  ⟨by decide, by decide,
    (list_pilot_reputation_rows "P" ⟨"U"⟩ dbNoChanges (by decide)).2
      (by decide)⟩

/-- C7: every aggregate row a successful `list_pilot_reputation` call
returns carries a reputation_value equal to the sum of change_value over
all ledger rows for its (pilot, corporation) pair. -/
theorem reputation_value_is_sum (pilot_id : String) (u : User) (db : DB)
    (l : List PilotReputation) (e : PilotReputation)
    (h : (list_pilot_reputation pilot_id u db).1 = .ok l) (he : e ∈ l) :
    e.reputation_value =
      ((db.reputation_changes.filter (fun r =>
        r.pilot_id == e.pilot_id &&
          r.corporation_id == e.corporation_id)).map
        (fun r => r.change_value)).sum := by
  by_cases hb : (verify_pilot_ownership pilot_id u db).1 <;>
    simp [list_pilot_reputation, hb] at h
  rw [← h] at he
  have hv := List.mem_of_mem_filter he
  rw [pilot_reputation_view, List.mem_map] at hv
  obtain ⟨pc, _, hfe⟩ := hv
  subst hfe
  rfl

/-- Witness for C7 at the spec's scenario store: the single aggregate row
for (P, C) carries reputation_value 13 = 5 - 2 + 10. -/
theorem reputation_value_is_sum_witness :
    (list_pilot_reputation "P" ⟨"U"⟩ dbScenario).1 = .ok
      [ { pilot_id := "P", corporation_id := "C"
          corporation_name := "C-Name", reputation_value := 13 } ] ∧
    ({ pilot_id := "P", corporation_id := "C"
       corporation_name := "C-Name", reputation_value := 13 } :
        PilotReputation) ∈
      [ ({ pilot_id := "P", corporation_id := "C"
           corporation_name := "C-Name", reputation_value := 13 } :
            PilotReputation) ] ∧
    ({ pilot_id := "P", corporation_id := "C"
       corporation_name := "C-Name", reputation_value := 13 } :
        PilotReputation).reputation_value =
      ((dbScenario.reputation_changes.filter (fun r =>
        r.pilot_id == "P" && r.corporation_id == "C")).map
        (fun r => r.change_value)).sum :=
  ⟨by decide, by decide,
    reputation_value_is_sum "P" ⟨"U"⟩ dbScenario
      [ { pilot_id := "P", corporation_id := "C"
          corporation_name := "C-Name", reputation_value := 13 } ]
      { pilot_id := "P", corporation_id := "C"
        corporation_name := "C-Name", reputation_value := 13 }
      (by decide) (by decide)⟩

/-- Each single call's query trace consists of select queries only, so
replaying it leaves the store unchanged. -/
theorem replay_trace_eq (c : ApiCall) (db : DB) :
    replay db (c.trace db) = db := by
  cases c with
  | verifyCall p uu => rfl
  | reputationCall p uu =>
      by_cases hb : (verify_pilot_ownership p uu db).1 <;>
        simp [ApiCall.trace, list_pilot_reputation, hb, verify_trace_eq,
          replay, StoreQuery.apply]
  | historyCall p uu =>
      by_cases hb : (verify_pilot_ownership p uu db).1 <;>
        simp [ApiCall.trace, list_pilot_reputation_history, hb,
          verify_trace_eq, replay, StoreQuery.apply]

/-- C8: the ownership guard and both endpoints are read-only: running any
sequence of calls to them issues only select queries, so the backing store
after replaying all their traces equals the initial store. -/
theorem endpoints_read_only (calls : List ApiCall) (db : DB) :
    runCalls calls db = db := by
  induction calls generalizing db with
  | nil => rfl
  | cons c t ih =>
      rw [runCalls, List.foldl_cons, replay_trace_eq]
      exact ih db

/-- C9: an ExoticGearWithLogInfo built from gear fields without an
explicit is_lost value has is_lost False while lost_log_id keeps the
gear's value, so the two fields disagree whenever the gear carries a loss
reference: is_lost is not derived from lost_log_id. -/
theorem is_lost_defaults_false (g : ExoticGear) :
    (ExoticGearWithLogInfo.ofGear g).is_lost = false ∧
    (ExoticGearWithLogInfo.ofGear g).lost_log_id = g.lost_log_id :=
  ⟨rfl, rfl⟩

/-- C10: a GearUpdate request body with every field omitted passes
validation and yields the record with name, description and notes all
null. -/
theorem gear_update_empty_accepted :
    GearUpdate.validate [] =
      .ok { name := none, description := none, notes := none } :=
  rfl

end TTRPG
